import Mathlib

/-!
Verification of the span buffering and upload pipeline of
`ragaai_catalyst/tracers/exporters/file_span_exporter.py` and of the prompt
template compiler in `ragaai_catalyst/prompt_manager.py`.

The Python code is shallowly embedded: JSON documents become the inductive
`JVal`, Python dicts become association lists, the filesystem becomes an
explicit `FS` record, and the `FileSpanExporter.export` method becomes the
pure state-transformer `FileSpanExporter.exportBatch`.  Python exceptions are
made explicit: an `ExportResult` carries an `Option PyErr` recording whether
the call raised, together with the state as it stands at the point the
exception propagates (Python side effects performed before a raise persist).
-/

set_option autoImplicit false

/-- A JSON value, as produced by `json.loads(span.to_json())` and assembled by
the exporter.  Objects preserve insertion order, as Python dicts do. -/
inductive JVal where
  | str (s : String)
  | obj (fields : List (String × JVal))
  | arr (elems : List JVal)
  | jnull

/-- A parsed JSON document (a Python dict): an insertion-ordered association
list, the form in which spans, `metadata` and `pipeline` reach the code. -/
abbrev Doc := List (String × JVal)

/-- Reading `d[k]` from a Python dict: the value at key `k`, if present. -/
def lookupKey (d : Doc) (k : String) : Option JVal :=
  (d.find? (fun p => p.1 == k)).map Prod.snd

/-- `k in d` for a Python dict. -/
def hasKey (d : Doc) (k : String) : Bool :=
  d.any (fun p => p.1 == k)

/-- Python dict assignment `d[k] = v`: replaces the value in place when the
key exists (keeping its position), otherwise appends the pair at the end. -/
def setKey (d : Doc) (k : String) (v : JVal) : Doc :=
  if hasKey d k then d.map (fun p => if p.1 == k then (k, v) else p)
  else d ++ [(k, v)]

/-- `traces_list[0]["context"]["trace_id"]` (file_span_exporter.py line 63):
the trace id read from a span document's context, when well formed. -/
def ctxTraceId (d : Doc) : Option String :=
  match lookupKey d "context" with
  | some (JVal.obj c) =>
    match lookupKey c "trace_id" with
    | some (JVal.str t) => some t
    | _ => none
  | _ => none

/-- The trace id an export call would key off: the first span's context trace
id (`none` both for the empty batch and for a malformed first span). -/
def batchTid (b : List Doc) : Option String :=
  match b with
  | [] => none
  | s0 :: _ => ctxTraceId s0

/-- The Python exceptions the embedded code can raise. -/
inductive PyErr where
  | indexError
  | keyError
  | valueError
  | attributeError
deriving DecidableEq

/-- Instance state of a `FileSpanExporter`.  `sync_file` is the upload cursor
(`self.sync_file`, initialised to `None` in `__init__`); `upload_timeout`
models the `self.upload_timeout` attribute, which `__init__` never assigns,
hence `none` on every exporter this class itself constructs — reading it then
raises `AttributeError`. -/
structure Exporter where
  project_name : JVal
  session_id : String
  metadata : Doc
  pipeline : Doc
  sync_file : Option String
  upload_timeout : Option Nat

/-- `FileSpanExporter.__init__`: cursor unset, `upload_timeout` attribute
absent. -/
def initExporter (pn : JVal) (sid : String) (m pl : Doc) : Exporter :=
  { project_name := pn, session_id := sid, metadata := m, pipeline := pl,
    sync_file := none, upload_timeout := none }

/-- The staging filesystem.  Since `dir_name` is fixed per exporter and the
staging files are named `{traceId}.jsonl` / `{traceId}.json`, both families
are keyed here by the trace id; `tracerJson` is the fixed `tracer.json`
inspection file in the working directory. -/
structure FS where
  jsonl : String → List JVal
  snap : String → Option (List JVal)
  tracerJson : Option JVal

/-- A directory with no pre-existing staging files. -/
def emptyFS : FS :=
  { jsonl := fun _ => [], snap := fun _ => none, tracerJson := none }

/-- Behaviour of one call to the external Upload Client's
`check_and_upload_files`: it returns a status boolean, raises an arbitrary
exception, or raises `asyncio.TimeoutError`. -/
inductive ClientBehavior where
  | success (stat : Bool)
  | raises (msg : String)
  | timesOut
deriving DecidableEq

/-- `not os.getenv("RAGAAI_CATALYST_TOKEN")`: the credential is missing when
the variable is unset or empty (the empty string is falsy in Python). -/
def tokenMissing : Option String → Bool
  | none => true
  | some s => s.isEmpty

namespace FileSpanExporter

/-- `FileSpanExporter._upload_traces` bridged through `_run_async`: checks the
credential (raising `ValueError` when absent), then invokes the Upload Client;
a generic exception is converted to an `"Upload failed: ..."` status string,
while `asyncio.TimeoutError` is handled by formatting `self.upload_timeout` —
an attribute this class never sets, so that handler raises `AttributeError`
when the attribute is absent. -/
def uploadTraces (e : Exporter) (tok : Option String) (cb : ClientBehavior) :
    Except PyErr String :=
  if tokenMissing tok then Except.error PyErr.valueError
  else
    match cb with
    | ClientBehavior.success stat =>
      Except.ok (if stat then "Files uploaded successfully" else "No files to upload")
    | ClientBehavior.raises msg => Except.ok ("Upload failed: " ++ msg)
    | ClientBehavior.timesOut =>
      match e.upload_timeout with
      | none => Except.error PyErr.attributeError
      | some t => Except.ok ("Upload timed out after " ++ toString t ++ " seconds")

/-- The envelope `export_data` assembled by `export` (lines 62–82): project
name, trace id, session id, the span documents each given a `prompt_id`, and
`metadata` / `pipeline` each given an `id`, where `guk` is
`utils.get_unique_key` (an external content-hash; its value is irrelevant
here, so it is a parameter). -/
def envelopeOf (guk : Doc → String) (e : Exporter) (spans : List Doc)
    (tid : String) : JVal :=
  JVal.obj [
    ("project_name", e.project_name),
    ("trace_id", JVal.str tid),
    ("session_id", JVal.str e.session_id),
    ("traces", JVal.arr (spans.map
      (fun t => JVal.obj (setKey t "prompt_id" (JVal.str (guk t)))))),
    ("metadata", JVal.obj (setKey e.metadata "id" (JVal.str (guk e.metadata)))),
    ("pipeline", JVal.obj (setKey e.pipeline "id" (JVal.str (guk e.pipeline))))]

/-- Outcome of one `export` call: the exporter and filesystem as they stand
when the call returns or when an exception propagates out of it, the
exception if any, the snapshot paths passed to `_upload_traces` during the
call, and the envelope the call assembled (for bookkeeping in statements). -/
structure ExportResult where
  exporter : Exporter
  fs : FS
  err : Option PyErr
  attempts : List String
  written : Option JVal

/-- `FileSpanExporter.export` (the method is named `export`, a Lean keyword).
Faithful to lines 62–112: an empty batch raises `IndexError` at
`traces_list[0]` before any write; otherwise the envelope is appended to the
trace id's `.jsonl` file, `tracer.json` is overwritten, and the `.json`
snapshot is appended to if it exists — else it is created with a one-element
array, and if the cursor `sync_file` holds a prior path that path is uploaded
synchronously before the cursor is replaced.  When the upload raises, the
exception propagates and the cursor assignment on line 112 never runs. -/
def exportBatch (guk : Doc → String) (tok : Option String) (cb : ClientBehavior)
    (e : Exporter) (fs : FS) (spans : List Doc) : ExportResult :=
  match spans with
  | [] => ⟨e, fs, some PyErr.indexError, [], none⟩
  | s0 :: _ =>
    match ctxTraceId s0 with
    | none => ⟨e, fs, some PyErr.keyError, [], none⟩
    | some tid =>
      let env := envelopeOf guk e spans tid
      let e1 : Exporter := { e with
        metadata := setKey e.metadata "id" (JVal.str (guk e.metadata)),
        pipeline := setKey e.pipeline "id" (JVal.str (guk e.pipeline)) }
      let fs1 : FS := { fs with
        jsonl := fun t => if t = tid then fs.jsonl t ++ [env] else fs.jsonl t,
        tracerJson := some env }
      match fs.snap tid with
      | some arr =>
        ⟨e1, { fs1 with
          snap := fun t => if t = tid then some (arr ++ [env]) else fs1.snap t },
          none, [], some env⟩
      | none =>
        let fs2 : FS := { fs1 with
          snap := fun t => if t = tid then some [env] else fs1.snap t }
        match e.sync_file with
        | none => ⟨{ e1 with sync_file := some tid }, fs2, none, [], some env⟩
        | some p =>
          match uploadTraces e tok cb with
          | Except.ok _ => ⟨{ e1 with sync_file := some tid }, fs2, none, [p], some env⟩
          | Except.error er => ⟨e1, fs2, some er, [p], some env⟩

/-- Outcome of a sequence of `export` calls on one exporter: final state, the
per-call exception record, all upload attempts in order, and the envelopes
written, one per non-raising-before-write call, in call order. -/
structure RunResult where
  exporter : Exporter
  fs : FS
  errs : List (Option PyErr)
  attempts : List String
  written : List JVal

/-- Run `export` over a sequence of batches, threading exporter and
filesystem state. -/
def runExports (guk : Doc → String) (tok : Option String) (cb : ClientBehavior) :
    List (List Doc) → Exporter → FS → RunResult
  | [], e, fs => ⟨e, fs, [], [], []⟩
  | b :: bs, e, fs =>
    let r := exportBatch guk tok cb e fs b
    let rest := runExports guk tok cb bs r.exporter r.fs
    ⟨rest.exporter, rest.fs, r.err :: rest.errs, r.attempts ++ rest.attempts,
      r.written.toList ++ rest.written⟩

end FileSpanExporter

/-- The ordered key list of a JSON object (and `[]` on non-objects); used to
state the envelope's wire shape. -/
def objKeys : JVal → List String
  | JVal.obj l => l.map Prod.fst
  | _ => []

/-- Reading a field of a JSON object value (`none` on non-objects). -/
def jLookup : JVal → String → Option JVal
  | JVal.obj d, k => lookupKey d k
  | _, _ => none

namespace PromptObject

/-- Helper for the regex `\x7b\x7b(.*?)\x7d\x7d` of
`PromptObject.get_variables` (prompt_manager.py line 327): given the
characters following an opening double brace, the shortest prefix of
non-newline characters up to the earliest closing double brace, together with
the characters after it (`.` does not match a newline and `.*?` is
non-greedy); `none` when no closing double brace is reachable. -/
def takeUntil2 : List Char → Option (List Char × List Char)
  | [] => none
  | '}' :: '}' :: rem => some ([], rem)
  | '\n' :: _ => none
  | c :: rest =>
    match takeUntil2 rest with
    | some (inner, rem) => some (c :: inner, rem)
    | none => none

/-- `re.findall` for that pattern: scan left to right, taking leftmost
shortest matches and resuming after each; on a failed start, advance one
character (so the second `\x7b` may start a later match).  `fuel` bounds the
recursion and is instantiated with the text length, which the scan never
exhausts since every step consumes at least one character. -/
def scanAux : Nat → List Char → List (List Char)
  | 0, _ => []
  | _ + 1, [] => []
  | f + 1, '{' :: '{' :: cs2 =>
    match takeUntil2 cs2 with
    | some (inner, rem) => inner :: scanAux f rem
    | none => scanAux f ('{' :: cs2)
  | f + 1, _ :: cs => scanAux f cs

/-- The ASCII whitespace characters Python's `str.strip()` removes (Unicode
whitespace beyond ASCII is not modelled). -/
def isPyWs (c : Char) : Bool :=
  c = ' ' || c = '\t' || c = '\n' || c = '\r' || c = '\x0b' || c = '\x0c'

/-- Python `match.strip()`. -/
def pyStrip (s : List Char) : List Char :=
  ((s.dropWhile isPyWs).reverse.dropWhile isPyWs).reverse

/-- `PromptObject.get_variables` (lines 320–329): the regex matches, those
not containing a double quote, each stripped of surrounding whitespace. -/
def get_variables (text : String) : List String :=
  ((scanAux text.data.length text.data).filter
    (fun m => !m.any (fun c => c = '"'))).map (fun m => String.mk (pyStrip m))

/-- Does `pat` occur at the head of the text? -/
def startsWithChars : List Char → List Char → Bool
  | [], _ => true
  | _ :: _, [] => false
  | p :: ps, c :: cs => p = c && startsWithChars ps cs

/-- Python `str.replace` over characters: replace every non-overlapping
occurrence of `pat`, scanning left to right; the `skip` counter consumes the
tail of a match just replaced. -/
def replaceGo (pat rep : List Char) : List Char → Nat → List Char
  | [], _ => []
  | _ :: cs, Nat.succ k => replaceGo pat rep cs k
  | c :: cs, 0 =>
    if startsWithChars pat (c :: cs) then rep ++ replaceGo pat rep cs (pat.length - 1)
    else c :: replaceGo pat rep cs 0

/-- Python `s.replace(pat, rep)` (with a non-empty pattern, the only use
here). -/
def pyReplace (s pat rep : String) : String :=
  String.mk (replaceGo pat.data rep.data s.data 0)

/-- The substitution loop of `PromptObject.compile` (lines 315–317): for each
keyword argument in order, replace every occurrence of the doubly braced key
by the value (values already in string form, as `str(value)` makes them). -/
def substituteAll (text : String) (kwargs : List (String × String)) : String :=
  kwargs.foldl
    (fun acc kv => pyReplace acc ("\x7b\x7b" ++ kv.1 ++ "\x7d\x7d") kv.2) text

/-- `PromptObject.compile` (lines 291–318): raise `ValueError` when some
required variable is missing or some extra argument is supplied, otherwise
return the substituted text.  (Python joins a *set* of names into the
message, so the embedded message may order names differently; no claim
concerns the message text.) -/
def compile (text : String) (kwargs : List (String × String)) :
    Except String String :=
  let required := get_variables text
  let provided := kwargs.map Prod.fst
  let missing := required.filter (fun v => !provided.contains v)
  let extra := provided.filter (fun k => !required.contains k)
  if missing ≠ [] then
    Except.error ("Missing variable(s): " ++ String.intercalate ", " missing)
  else if extra ≠ [] then
    Except.error ("Extra variable(s) provided: " ++ String.intercalate ", " extra)
  else Except.ok (substituteAll text kwargs)

end PromptObject

/-- A minimal well-formed span document for trace id `tid`, for concrete
instantiations. -/
def sampleDoc (tid : String) : Doc :=
  [("context", JVal.obj [("trace_id", JVal.str tid)])]

/-- A concrete stand-in for the external content-hash `get_unique_key`. -/
def sampleGuk : Doc → String := fun _ => "k"

/-- A freshly constructed exporter. -/
def sampleExporter : Exporter := initExporter JVal.jnull "sess" [] []

/-- A fresh exporter whose cursor already holds trace "A"'s snapshot path. -/
def sampleExporterCursor : Exporter := { sampleExporter with sync_file := some "A" }

namespace FileSpanExporter

/-- First concrete call of the A,A,B,C scenario. -/
def sampleRun1 : ExportResult :=
  exportBatch sampleGuk (some "tok") (ClientBehavior.success true)
    sampleExporter emptyFS [sampleDoc "A"]

/-- Second concrete call of the A,A,B,C scenario. -/
def sampleRun2 : ExportResult :=
  exportBatch sampleGuk (some "tok") (ClientBehavior.success true)
    sampleRun1.exporter sampleRun1.fs [sampleDoc "A"]

/-- Third concrete call of the A,A,B,C scenario. -/
def sampleRun3 : ExportResult :=
  exportBatch sampleGuk (some "tok") (ClientBehavior.success true)
    sampleRun2.exporter sampleRun2.fs [sampleDoc "B"]

/-- Fourth concrete call of the A,A,B,C scenario. -/
def sampleRun4 : ExportResult :=
  exportBatch sampleGuk (some "tok") (ClientBehavior.success true)
    sampleRun3.exporter sampleRun3.fs [sampleDoc "C"]

end FileSpanExporter

namespace FileSpanExporter

/-- A non-empty, well-formed batch decomposes as a cons whose head carries the
trace id. -/
theorem batchTid_eq_some {b : List Doc} {tid : String}
    (hb : batchTid b = some tid) :
    ∃ s0 rest, b = s0 :: rest ∧ ctxTraceId s0 = some tid := by
  cases b with
  | nil => simp [batchTid] at hb
  | cons s0 rest => exact ⟨s0, rest, rfl, hb⟩

/-- Second-and-later export call for a trace id (its snapshot file exists):
the envelope is appended to both staging files and `tracer.json` is
overwritten; no upload happens and the cursor is untouched. -/
theorem exportBatch_snap_some (guk : Doc → String) (tok : Option String)
    (cb : ClientBehavior) (e : Exporter) (fs : FS) (b : List Doc)
    (tid : String) (arr : List JVal)
    (hb : batchTid b = some tid) (hsnap : fs.snap tid = some arr) :
    (exportBatch guk tok cb e fs b).err = none ∧
    (exportBatch guk tok cb e fs b).attempts = [] ∧
    (exportBatch guk tok cb e fs b).written = some (envelopeOf guk e b tid) ∧
    (exportBatch guk tok cb e fs b).exporter.sync_file = e.sync_file ∧
    (exportBatch guk tok cb e fs b).exporter.upload_timeout = e.upload_timeout ∧
    (∀ t, (exportBatch guk tok cb e fs b).fs.snap t =
      if t = tid then some (arr ++ [envelopeOf guk e b tid]) else fs.snap t) ∧
    (∀ t, (exportBatch guk tok cb e fs b).fs.jsonl t =
      if t = tid then fs.jsonl t ++ [envelopeOf guk e b tid] else fs.jsonl t) ∧
    (exportBatch guk tok cb e fs b).fs.tracerJson = some (envelopeOf guk e b tid) := by
  obtain ⟨s0, rest, rfl, h0⟩ := batchTid_eq_some hb
  simp [exportBatch, h0, hsnap]

/-- First export call for a trace id, cursor unset: the snapshot file is
created, no upload happens, and the cursor is set to this trace id's
snapshot path. -/
theorem exportBatch_first_nocursor (guk : Doc → String) (tok : Option String)
    (cb : ClientBehavior) (e : Exporter) (fs : FS) (b : List Doc)
    (tid : String)
    (hb : batchTid b = some tid) (hsnap : fs.snap tid = none)
    (hsync : e.sync_file = none) :
    (exportBatch guk tok cb e fs b).err = none ∧
    (exportBatch guk tok cb e fs b).attempts = [] ∧
    (exportBatch guk tok cb e fs b).written = some (envelopeOf guk e b tid) ∧
    (exportBatch guk tok cb e fs b).exporter.sync_file = some tid ∧
    (exportBatch guk tok cb e fs b).exporter.upload_timeout = e.upload_timeout ∧
    (∀ t, (exportBatch guk tok cb e fs b).fs.snap t =
      if t = tid then some [envelopeOf guk e b tid] else fs.snap t) ∧
    (∀ t, (exportBatch guk tok cb e fs b).fs.jsonl t =
      if t = tid then fs.jsonl t ++ [envelopeOf guk e b tid] else fs.jsonl t) ∧
    (exportBatch guk tok cb e fs b).fs.tracerJson = some (envelopeOf guk e b tid) := by
  obtain ⟨s0, rest, rfl, h0⟩ := batchTid_eq_some hb
  simp [exportBatch, h0, hsnap, hsync]

/-- First export call for a new trace id while the cursor holds a prior path,
upload returning normally: the cursor path is uploaded and the cursor is then
replaced by the new trace id's snapshot path. -/
theorem exportBatch_first_cursor_ok (guk : Doc → String) (tok : Option String)
    (cb : ClientBehavior) (e : Exporter) (fs : FS) (b : List Doc)
    (tid p : String) (s : String)
    (hb : batchTid b = some tid) (hsnap : fs.snap tid = none)
    (hsync : e.sync_file = some p)
    (hup : uploadTraces e tok cb = Except.ok s) :
    (exportBatch guk tok cb e fs b).err = none ∧
    (exportBatch guk tok cb e fs b).attempts = [p] ∧
    (exportBatch guk tok cb e fs b).written = some (envelopeOf guk e b tid) ∧
    (exportBatch guk tok cb e fs b).exporter.sync_file = some tid ∧
    (exportBatch guk tok cb e fs b).exporter.upload_timeout = e.upload_timeout ∧
    (∀ t, (exportBatch guk tok cb e fs b).fs.snap t =
      if t = tid then some [envelopeOf guk e b tid] else fs.snap t) ∧
    (∀ t, (exportBatch guk tok cb e fs b).fs.jsonl t =
      if t = tid then fs.jsonl t ++ [envelopeOf guk e b tid] else fs.jsonl t) ∧
    (exportBatch guk tok cb e fs b).fs.tracerJson = some (envelopeOf guk e b tid) := by
  obtain ⟨s0, rest, rfl, h0⟩ := batchTid_eq_some hb
  simp [exportBatch, h0, hsnap, hsync, hup]

/-- First export call for a new trace id while the cursor holds a prior path,
upload raising: the staging writes have already happened, the exception
propagates out of `export`, and the cursor keeps the prior path. -/
theorem exportBatch_first_cursor_raise (guk : Doc → String) (tok : Option String)
    (cb : ClientBehavior) (e : Exporter) (fs : FS) (b : List Doc)
    (tid p : String) (er : PyErr)
    (hb : batchTid b = some tid) (hsnap : fs.snap tid = none)
    (hsync : e.sync_file = some p)
    (hup : uploadTraces e tok cb = Except.error er) :
    (exportBatch guk tok cb e fs b).err = some er ∧
    (exportBatch guk tok cb e fs b).attempts = [p] ∧
    (exportBatch guk tok cb e fs b).written = some (envelopeOf guk e b tid) ∧
    (exportBatch guk tok cb e fs b).exporter.sync_file = some p ∧
    (exportBatch guk tok cb e fs b).exporter.upload_timeout = e.upload_timeout ∧
    (∀ t, (exportBatch guk tok cb e fs b).fs.snap t =
      if t = tid then some [envelopeOf guk e b tid] else fs.snap t) ∧
    (∀ t, (exportBatch guk tok cb e fs b).fs.jsonl t =
      if t = tid then fs.jsonl t ++ [envelopeOf guk e b tid] else fs.jsonl t) ∧
    (exportBatch guk tok cb e fs b).fs.tracerJson = some (envelopeOf guk e b tid) := by
  obtain ⟨s0, rest, rfl, h0⟩ := batchTid_eq_some hb
  simp [exportBatch, h0, hsnap, hsync, hup]

/-- When the credential is present and the client does not time out, the
upload bridge returns a status string (it never raises). -/
theorem uploadTraces_ok_of_normal (e : Exporter) (tok : Option String)
    (cb : ClientBehavior) (htok : tokenMissing tok = false)
    (hcb : cb ≠ ClientBehavior.timesOut) :
    ∃ s, uploadTraces e tok cb = Except.ok s := by
  cases cb with
  | success stat =>
    exact ⟨if stat then "Files uploaded successfully" else "No files to upload",
      by simp [uploadTraces, htok]⟩
  | raises msg => exact ⟨"Upload failed: " ++ msg, by simp [uploadTraces, htok]⟩
  | timesOut => exact absurd rfl hcb

end FileSpanExporter

namespace FileSpanExporter

/-- Running a concatenation of batch sequences is running the pieces in
order, threading state; the logs concatenate. -/
theorem runExports_append (guk : Doc → String) (tok : Option String)
    (cb : ClientBehavior) (xs ys : List (List Doc)) (e : Exporter) (fs : FS) :
    runExports guk tok cb (xs ++ ys) e fs =
      let r := runExports guk tok cb xs e fs
      let s := runExports guk tok cb ys r.exporter r.fs
      ⟨s.exporter, s.fs, r.errs ++ s.errs, r.attempts ++ s.attempts,
        r.written ++ s.written⟩ := by
  induction xs generalizing e fs with
  | nil => simp [runExports]
  | cons b bs ih => simp [runExports, ih]

/-- Running any number of same-trace-id batches while that trace id's
snapshot file already exists: every call returns normally, attempts no
upload, and appends its envelope to both staging files, so the files grow by
exactly the per-call envelopes, in call order. -/
theorem runExports_snap_some (guk : Doc → String) (tok : Option String)
    (cb : ClientBehavior) (tid : String) :
    ∀ (bs : List (List Doc)) (e : Exporter) (fs : FS) (arr : List JVal),
    (∀ b ∈ bs, batchTid b = some tid) → fs.snap tid = some arr →
    (runExports guk tok cb bs e fs).fs.snap tid =
        some (arr ++ (runExports guk tok cb bs e fs).written) ∧
    (runExports guk tok cb bs e fs).fs.jsonl tid =
        fs.jsonl tid ++ (runExports guk tok cb bs e fs).written ∧
    (runExports guk tok cb bs e fs).written.length = bs.length ∧
    (runExports guk tok cb bs e fs).errs = bs.map (fun _ => none) ∧
    (runExports guk tok cb bs e fs).attempts = [] ∧
    (∀ v ∈ (runExports guk tok cb bs e fs).written,
      ∃ e' b', v = envelopeOf guk e' b' tid) := by
  intro bs
  induction bs with
  | nil =>
    intro e fs arr _ hsnap
    refine ⟨by simpa [runExports] using hsnap, by simp [runExports], by simp [runExports],
      by simp [runExports], by simp [runExports], by simp [runExports]⟩
  | cons b bs ih =>
    intro e fs arr hall hsnap
    obtain ⟨herr, hatt, hwr, _, _, hsn, hjs, _⟩ :=
      exportBatch_snap_some guk tok cb e fs b tid arr (hall b (by simp)) hsnap
    have hsn' : (exportBatch guk tok cb e fs b).fs.snap tid =
        some (arr ++ [envelopeOf guk e b tid]) := by simp [hsn]
    obtain ⟨ih1, ih2, ih3, ih4, ih5, ih6⟩ :=
      ih (exportBatch guk tok cb e fs b).exporter (exportBatch guk tok cb e fs b).fs
        (arr ++ [envelopeOf guk e b tid])
        (fun b' hb' => hall b' (by simp [hb'])) hsn'
    refine ⟨?_, ?_, ?_, ?_, ?_, ?_⟩
    · simp only [runExports]
      simp [ih1, hwr, List.append_assoc]
    · simp only [runExports]
      simp [ih2, hwr, hjs, List.append_assoc]
    · simp only [runExports]
      simp [ih3, hwr]
    · simp only [runExports]
      simp [ih4, herr]
    · simp only [runExports]
      simp [ih5, hatt]
    · simp only [runExports]
      intro v hv
      simp only [hwr] at hv
      rcases (by simpa using hv :
          v = envelopeOf guk e b tid ∨
          v ∈ (runExports guk tok cb bs (exportBatch guk tok cb e fs b).exporter
            (exportBatch guk tok cb e fs b).fs).written) with h | h
      · exact ⟨e, b, h⟩
      · exact ih6 v h

end FileSpanExporter

namespace FileSpanExporter

/-- One `export` call never removes or overwrites a line of any
line-delimited staging file: whatever the batch and whatever branch is taken
(including the error paths), a `.jsonl` file only ever grows at the end. -/
theorem exportBatch_jsonl_mono (guk : Doc → String) (tok : Option String)
    (cb : ClientBehavior) (e : Exporter) (fs : FS) (b : List Doc)
    (tid : String) :
    ∃ xs, (exportBatch guk tok cb e fs b).fs.jsonl tid = fs.jsonl tid ++ xs := by
  cases b with
  | nil => exact ⟨[], by simp [exportBatch]⟩
  | cons s0 rest =>
    cases hctx : ctxTraceId s0 with
    | none => exact ⟨[], by simp [exportBatch, hctx]⟩
    | some tid' =>
      refine ⟨if tid = tid'
        then [envelopeOf guk e (s0 :: rest) tid'] else [], ?_⟩
      simp only [exportBatch, hctx]
      split
      · by_cases htt : tid = tid' <;> simp [htt]
      · split
        · by_cases htt : tid = tid' <;> simp [htt]
        · split <;> by_cases htt : tid = tid' <;> simp [htt]

/-- Append-only invariant over any call sequence: the line-delimited file of
any trace id after the run extends the one before it. -/
theorem runExports_jsonl_mono (guk : Doc → String) (tok : Option String)
    (cb : ClientBehavior) (tid : String) :
    ∀ (bs : List (List Doc)) (e : Exporter) (fs : FS),
    ∃ xs, (runExports guk tok cb bs e fs).fs.jsonl tid = fs.jsonl tid ++ xs := by
  intro bs
  induction bs with
  | nil => exact fun e fs => ⟨[], by simp [runExports]⟩
  | cons b bs ih =>
    intro e fs
    obtain ⟨x1, hx1⟩ := exportBatch_jsonl_mono guk tok cb e fs b tid
    obtain ⟨x2, hx2⟩ := ih (exportBatch guk tok cb e fs b).exporter
      (exportBatch guk tok cb e fs b).fs
    exact ⟨x1 ++ x2, by simp only [runExports]; simp [hx2, hx1]⟩

end FileSpanExporter

namespace FileSpanExporter

/-- C4: for every N ≥ 1, after N sequential `export` calls for the same trace
id, starting from a fresh coordinator and no staging files, that trace id's
array-form snapshot file contains exactly N envelopes — precisely the
envelopes the calls assembled, in call order (`written` lists them in call
order). -/
theorem c4_snapshot_accumulation (guk : Doc → String) (tok : Option String)
    (cb : ClientBehavior) (pn : JVal) (sid : String) (m0 p0 : Doc)
    (tid : String) (bs : List (List Doc)) (hne : bs ≠ [])
    (hall : ∀ b ∈ bs, batchTid b = some tid) :
    (runExports guk tok cb bs (initExporter pn sid m0 p0) emptyFS).fs.snap tid =
      some (runExports guk tok cb bs (initExporter pn sid m0 p0) emptyFS).written ∧
    (runExports guk tok cb bs (initExporter pn sid m0 p0) emptyFS).written.length
      = bs.length := by
  cases bs with
  | nil => exact absurd rfl hne
  | cons b bs' =>
    obtain ⟨_, _, hwr, _, _, hsn, _, _⟩ :=
      exportBatch_first_nocursor guk tok cb (initExporter pn sid m0 p0) emptyFS b tid
        (hall b (by simp)) rfl rfl
    have hsn' : (exportBatch guk tok cb (initExporter pn sid m0 p0) emptyFS b).fs.snap tid
        = some [envelopeOf guk (initExporter pn sid m0 p0) b tid] := by simp [hsn]
    obtain ⟨ih1, _, ih3, _, _, _⟩ :=
      runExports_snap_some guk tok cb tid bs'
        (exportBatch guk tok cb (initExporter pn sid m0 p0) emptyFS b).exporter
        (exportBatch guk tok cb (initExporter pn sid m0 p0) emptyFS b).fs
        [envelopeOf guk (initExporter pn sid m0 p0) b tid]
        (fun b' hb' => hall b' (by simp [hb'])) hsn'
    constructor
    · simp only [runExports]
      simp [ih1, hwr]
    · simp only [runExports]
      simp [ih3, hwr]

/-- C5: for every N ≥ 1, after N sequential `export` calls for the same trace
id from a fresh start, the line-delimited staging file holds exactly the N
assembled envelopes, one line per call, in call order; every line has the
envelope shape; and no call of any run ever removes or overwrites a
previously written line (the file after any prefix of the calls is a prefix
of the file after all of them). -/
theorem c5_jsonl_lines (guk : Doc → String) (tok : Option String)
    (cb : ClientBehavior) (pn : JVal) (sid : String) (m0 p0 : Doc)
    (tid : String) (bs : List (List Doc)) (hne : bs ≠ [])
    (hall : ∀ b ∈ bs, batchTid b = some tid) :
    (runExports guk tok cb bs (initExporter pn sid m0 p0) emptyFS).fs.jsonl tid =
      (runExports guk tok cb bs (initExporter pn sid m0 p0) emptyFS).written ∧
    (runExports guk tok cb bs (initExporter pn sid m0 p0) emptyFS).written.length
      = bs.length ∧
    (∀ v ∈ (runExports guk tok cb bs (initExporter pn sid m0 p0) emptyFS).written,
      objKeys v = ["project_name", "trace_id", "session_id", "traces",
        "metadata", "pipeline"]) ∧
    (∀ pre suf, bs = pre ++ suf → ∃ xs,
      (runExports guk tok cb bs (initExporter pn sid m0 p0) emptyFS).fs.jsonl tid =
        (runExports guk tok cb pre (initExporter pn sid m0 p0) emptyFS).fs.jsonl tid
          ++ xs) := by
  have hmain : ∀ v ∈ (runExports guk tok cb bs (initExporter pn sid m0 p0)
      emptyFS).written, ∃ e' b', v = envelopeOf guk e' b' tid := by
    cases bs with
    | nil => simp [runExports]
    | cons b bs' =>
      obtain ⟨_, _, hwr, _, _, hsn, _, _⟩ :=
        exportBatch_first_nocursor guk tok cb (initExporter pn sid m0 p0) emptyFS b tid
          (hall b (by simp)) rfl rfl
      have hsn' : (exportBatch guk tok cb (initExporter pn sid m0 p0) emptyFS b).fs.snap
          tid = some [envelopeOf guk (initExporter pn sid m0 p0) b tid] := by simp [hsn]
      obtain ⟨_, _, _, _, _, ih6⟩ :=
        runExports_snap_some guk tok cb tid bs'
          (exportBatch guk tok cb (initExporter pn sid m0 p0) emptyFS b).exporter
          (exportBatch guk tok cb (initExporter pn sid m0 p0) emptyFS b).fs
          [envelopeOf guk (initExporter pn sid m0 p0) b tid]
          (fun b' hb' => hall b' (by simp [hb'])) hsn'
      intro v hv
      simp only [runExports] at hv
      rcases (by simpa [hwr] using hv :
          v = envelopeOf guk (initExporter pn sid m0 p0) b tid ∨
          v ∈ (runExports guk tok cb bs'
            (exportBatch guk tok cb (initExporter pn sid m0 p0) emptyFS b).exporter
            (exportBatch guk tok cb (initExporter pn sid m0 p0) emptyFS b).fs).written)
        with h | h
      · exact ⟨initExporter pn sid m0 p0, b, h⟩
      · exact ih6 v h
  refine ⟨?_, ?_, ?_, ?_⟩
  · cases bs with
    | nil => exact absurd rfl hne
    | cons b bs' =>
      obtain ⟨_, _, hwr, _, _, hsn, hjs, _⟩ :=
        exportBatch_first_nocursor guk tok cb (initExporter pn sid m0 p0) emptyFS b tid
          (hall b (by simp)) rfl rfl
      have hsn' : (exportBatch guk tok cb (initExporter pn sid m0 p0) emptyFS b).fs.snap
          tid = some [envelopeOf guk (initExporter pn sid m0 p0) b tid] := by simp [hsn]
      obtain ⟨_, ih2, _, _, _, _⟩ :=
        runExports_snap_some guk tok cb tid bs'
          (exportBatch guk tok cb (initExporter pn sid m0 p0) emptyFS b).exporter
          (exportBatch guk tok cb (initExporter pn sid m0 p0) emptyFS b).fs
          [envelopeOf guk (initExporter pn sid m0 p0) b tid]
          (fun b' hb' => hall b' (by simp [hb'])) hsn'
      have hjs' : (exportBatch guk tok cb (initExporter pn sid m0 p0) emptyFS b).fs.jsonl
          tid = [envelopeOf guk (initExporter pn sid m0 p0) b tid] := by
        rw [hjs tid]
        simp [emptyFS]
      simp only [runExports]
      simp [ih2, hwr, hjs']
  · cases bs with
    | nil => exact absurd rfl hne
    | cons b bs' =>
      obtain ⟨_, _, hwr, _, _, hsn, _, _⟩ :=
        exportBatch_first_nocursor guk tok cb (initExporter pn sid m0 p0) emptyFS b tid
          (hall b (by simp)) rfl rfl
      have hsn' : (exportBatch guk tok cb (initExporter pn sid m0 p0) emptyFS b).fs.snap
          tid = some [envelopeOf guk (initExporter pn sid m0 p0) b tid] := by simp [hsn]
      obtain ⟨_, _, ih3, _, _, _⟩ :=
        runExports_snap_some guk tok cb tid bs'
          (exportBatch guk tok cb (initExporter pn sid m0 p0) emptyFS b).exporter
          (exportBatch guk tok cb (initExporter pn sid m0 p0) emptyFS b).fs
          [envelopeOf guk (initExporter pn sid m0 p0) b tid]
          (fun b' hb' => hall b' (by simp [hb'])) hsn'
      simp only [runExports]
      simp [ih3, hwr]
  · intro v hv
    obtain ⟨e', b', rfl⟩ := hmain v hv
    rfl
  · rintro pre suf rfl
    rw [runExports_append guk tok cb pre suf (initExporter pn sid m0 p0) emptyFS]
    exact runExports_jsonl_mono guk tok cb tid suf
      (runExports guk tok cb pre (initExporter pn sid m0 p0) emptyFS).exporter
      (runExports guk tok cb pre (initExporter pn sid m0 p0) emptyFS).fs

/-- C6: calling `export` with an empty span sequence raises (`IndexError` at
`traces_list[0]`, before any file is opened): no staging file is written or
modified, no upload is attempted, and the exporter state is untouched. -/
theorem c6_empty_batch_rejected (guk : Doc → String) (tok : Option String)
    (cb : ClientBehavior) (e : Exporter) (fs : FS) :
    exportBatch guk tok cb e fs [] = ⟨e, fs, some PyErr.indexError, [], none⟩ :=
  rfl

end FileSpanExporter

namespace FileSpanExporter

/-- C1: starting from a fresh coordinator with no pre-existing staging files,
a sequence of export calls — two for trace id A, then one for B, then one for
C, the ids distinct — attempts the upload exactly twice over the whole
sequence: A's snapshot path is uploaded at B's first call and B's snapshot
path at C's first call; C's snapshot is never uploaded, and every call
returns normally.  The ambient upload operation is assumed to return rather
than raise (credential present, transfer not timing out), the regime the
claim describes; `exportBatch_first_cursor_raise` covers the raising case,
where the cursor is not advanced. -/
theorem c1_lagged_upload_trigger (guk : Doc → String) (tok : Option String)
    (cb : ClientBehavior) (pn : JVal) (sid : String) (m0 p0 : Doc)
    (A B C : String) (bA1 bA2 bB bC : List Doc) (r1 r2 r3 r4 : ExportResult)
    (hA1 : batchTid bA1 = some A) (hA2 : batchTid bA2 = some A)
    (hB : batchTid bB = some B) (hC : batchTid bC = some C)
    (hBA : B ≠ A) (hCA : C ≠ A) (hCB : C ≠ B)
    (htok : tokenMissing tok = false) (hcb : cb ≠ ClientBehavior.timesOut)
    (hr1 : r1 = exportBatch guk tok cb (initExporter pn sid m0 p0) emptyFS bA1)
    (hr2 : r2 = exportBatch guk tok cb r1.exporter r1.fs bA2)
    (hr3 : r3 = exportBatch guk tok cb r2.exporter r2.fs bB)
    (hr4 : r4 = exportBatch guk tok cb r3.exporter r3.fs bC) :
    r1.attempts = [] ∧ r2.attempts = [] ∧ r3.attempts = [A] ∧ r4.attempts = [B] ∧
    r1.err = none ∧ r2.err = none ∧ r3.err = none ∧ r4.err = none := by
  have E1 := exportBatch_first_nocursor guk tok cb (initExporter pn sid m0 p0)
    emptyFS bA1 A hA1 rfl rfl
  rw [← hr1] at E1
  obtain ⟨h1err, h1att, _, h1sync, _, h1snap, _, _⟩ := E1
  have h1A : r1.fs.snap A =
      some [envelopeOf guk (initExporter pn sid m0 p0) bA1 A] := by
    rw [h1snap A]; simp
  have E2 := exportBatch_snap_some guk tok cb r1.exporter r1.fs bA2 A
    [envelopeOf guk (initExporter pn sid m0 p0) bA1 A] hA2 h1A
  rw [← hr2] at E2
  obtain ⟨h2err, h2att, _, h2sync, _, h2snap, _, _⟩ := E2
  have h2B : r2.fs.snap B = none := by
    rw [h2snap B, if_neg hBA, h1snap B, if_neg hBA]; rfl
  have h2syncA : r2.exporter.sync_file = some A := by rw [h2sync, h1sync]
  obtain ⟨s3, hs3⟩ := uploadTraces_ok_of_normal r2.exporter tok cb htok hcb
  have E3 := exportBatch_first_cursor_ok guk tok cb r2.exporter r2.fs bB B A s3
    hB h2B h2syncA hs3
  rw [← hr3] at E3
  obtain ⟨h3err, h3att, _, h3sync, _, h3snap, _, _⟩ := E3
  have h3C : r3.fs.snap C = none := by
    rw [h3snap C, if_neg hCB, h2snap C, if_neg hCA, h1snap C, if_neg hCA]; rfl
  obtain ⟨s4, hs4⟩ := uploadTraces_ok_of_normal r3.exporter tok cb htok hcb
  have E4 := exportBatch_first_cursor_ok guk tok cb r3.exporter r3.fs bC C B s4
    hC h3C h3sync hs4
  rw [← hr4] at E4
  obtain ⟨h4err, h4att, _, _, _, _, _, _⟩ := E4
  exact ⟨h1att, h2att, h3att, h4att, h1err, h2err, h3err, h4err⟩

end FileSpanExporter

namespace FileSpanExporter

/-- C2: for every non-empty (well-formed) batch, when the Upload Client
raises an arbitrary non-timeout exception on every call (and the credential
is present, so the client is reached), `export` still returns normally —
the bridge converts the exception into a `Failed` status string — and the
line-delimited file, the array-form snapshot and the `tracer.json`
inspection file for that call are all still correctly written. -/
theorem c2_upload_failure_nonfatal (guk : Doc → String) (tok : Option String)
    (msg : String) (e : Exporter) (fs : FS) (b : List Doc) (tid : String)
    (hb : batchTid b = some tid) (htok : tokenMissing tok = false) :
    (exportBatch guk tok (ClientBehavior.raises msg) e fs b).err = none ∧
    (exportBatch guk tok (ClientBehavior.raises msg) e fs b).fs.jsonl tid =
      fs.jsonl tid ++ [envelopeOf guk e b tid] ∧
    (exportBatch guk tok (ClientBehavior.raises msg) e fs b).fs.snap tid =
      some ((fs.snap tid).getD [] ++ [envelopeOf guk e b tid]) ∧
    (exportBatch guk tok (ClientBehavior.raises msg) e fs b).fs.tracerJson =
      some (envelopeOf guk e b tid) := by
  have hup : uploadTraces e tok (ClientBehavior.raises msg) =
      Except.ok ("Upload failed: " ++ msg) := by simp [uploadTraces, htok]
  cases hsnap : fs.snap tid with
  | some arr =>
    obtain ⟨herr, _, _, _, _, hsn, hjs, htr⟩ :=
      exportBatch_snap_some guk tok (ClientBehavior.raises msg) e fs b tid arr hb hsnap
    refine ⟨herr, by rw [hjs tid]; simp, by rw [hsn tid]; simp [hsnap], htr⟩
  | none =>
    cases hsync : e.sync_file with
    | none =>
      obtain ⟨herr, _, _, _, _, hsn, hjs, htr⟩ :=
        exportBatch_first_nocursor guk tok (ClientBehavior.raises msg) e fs b tid
          hb hsnap hsync
      refine ⟨herr, by rw [hjs tid]; simp, by rw [hsn tid]; simp [hsnap], htr⟩
    | some p =>
      obtain ⟨herr, _, _, _, _, hsn, hjs, htr⟩ :=
        exportBatch_first_cursor_ok guk tok (ClientBehavior.raises msg) e fs b tid p
          ("Upload failed: " ++ msg) hb hsnap hsync hup
      refine ⟨herr, by rw [hjs tid]; simp, by rw [hsn tid]; simp [hsnap], htr⟩

/-- C3 counterexample: the claim says that on a first export call for a new
trace id with the cursor holding a prior trace's path, the cursor is set to
the new trace id's snapshot path regardless of the upload's outcome,
missing credential included.  At this concrete input the credential is
absent: the upload is attempted (and raises `ValueError`), `export`
propagates the exception, and the cursor still holds the prior path "A"
instead of the new path "B". -/
theorem c3_counterexample :
    (exportBatch (fun _ => "k") none (ClientBehavior.success true)
      { project_name := JVal.jnull, session_id := "s", metadata := [],
        pipeline := [], sync_file := some "A", upload_timeout := none }
      emptyFS
      [[("context", JVal.obj [("trace_id", JVal.str "B")])]]).attempts = ["A"] ∧
    (exportBatch (fun _ => "k") none (ClientBehavior.success true)
      { project_name := JVal.jnull, session_id := "s", metadata := [],
        pipeline := [], sync_file := some "A", upload_timeout := none }
      emptyFS
      [[("context", JVal.obj [("trace_id", JVal.str "B")])]]).exporter.sync_file
      ≠ some "B" ∧
    (exportBatch (fun _ => "k") none (ClientBehavior.success true)
      { project_name := JVal.jnull, session_id := "s", metadata := [],
        pipeline := [], sync_file := some "A", upload_timeout := none }
      emptyFS
      [[("context", JVal.obj [("trace_id", JVal.str "B")])]]).err
      = some PyErr.valueError := by
  refine ⟨rfl, ?_, rfl⟩
  decide

/-- C3 amended: on a first export call for a new trace id with the cursor
holding a prior trace's path, the upload is attempted on the cursor path;
when the upload returns an outcome (success or a swallowed transfer
failure), the cursor is then set to the new trace id's snapshot path, but
when the upload raises (missing credential, or timeout with the
`upload_timeout` attribute absent), the exception propagates out of `export`
and the cursor keeps the prior trace's path. -/
theorem c3_cursor_replacement (guk : Doc → String) (tok : Option String)
    (cb : ClientBehavior) (e : Exporter) (fs : FS) (b : List Doc)
    (tid p : String)
    (hb : batchTid b = some tid) (hsnap : fs.snap tid = none)
    (hsync : e.sync_file = some p) :
    (exportBatch guk tok cb e fs b).attempts = [p] ∧
    (∀ s, uploadTraces e tok cb = Except.ok s →
      (exportBatch guk tok cb e fs b).exporter.sync_file = some tid ∧
      (exportBatch guk tok cb e fs b).err = none) ∧
    (∀ er, uploadTraces e tok cb = Except.error er →
      (exportBatch guk tok cb e fs b).exporter.sync_file = some p ∧
      (exportBatch guk tok cb e fs b).err = some er) := by
  refine ⟨?_, ?_, ?_⟩
  · cases hup : uploadTraces e tok cb with
    | ok s =>
      obtain ⟨_, hatt, _, _, _, _, _, _⟩ :=
        exportBatch_first_cursor_ok guk tok cb e fs b tid p s hb hsnap hsync hup
      exact hatt
    | error er =>
      obtain ⟨_, hatt, _, _, _, _, _, _⟩ :=
        exportBatch_first_cursor_raise guk tok cb e fs b tid p er hb hsnap hsync hup
      exact hatt
  · intro s hup
    obtain ⟨herr, _, _, hsy, _, _, _, _⟩ :=
      exportBatch_first_cursor_ok guk tok cb e fs b tid p s hb hsnap hsync hup
    exact ⟨hsy, herr⟩
  · intro er hup
    obtain ⟨herr, _, _, hsy, _, _, _, _⟩ :=
      exportBatch_first_cursor_raise guk tok cb e fs b tid p er hb hsnap hsync hup
    exact ⟨hsy, herr⟩

/-- C7: the claim says a transfer timeout yields a `TimedOut` outcome
carrying the configured timeout duration, without raising — as the
function's own docstring also promises.  But `FileSpanExporter` never sets
the `upload_timeout` attribute the timeout handler formats, so on a freshly
constructed exporter the handler itself raises `AttributeError`, which
`export` propagates; only if some external code had set the attribute would
the promised status string be produced.  This evaluates the code at the
failing input. -/
theorem c7_timeout_handler_raises :
    uploadTraces (initExporter JVal.jnull "s" [] []) (some "tok")
      ClientBehavior.timesOut = Except.error PyErr.attributeError ∧
    (exportBatch (fun _ => "k") (some "tok") ClientBehavior.timesOut
      { project_name := JVal.jnull, session_id := "s", metadata := [],
        pipeline := [], sync_file := some "A", upload_timeout := none }
      emptyFS
      [[("context", JVal.obj [("trace_id", JVal.str "B")])]]).err
      = some PyErr.attributeError ∧
    (∀ t : Nat, uploadTraces
      { project_name := JVal.jnull, session_id := "s", metadata := [],
        pipeline := [], sync_file := some "A", upload_timeout := some t }
      (some "tok") ClientBehavior.timesOut =
      Except.ok ("Upload timed out after " ++ toString t ++ " seconds")) :=
  ⟨rfl, rfl, fun _ => rfl⟩

/-- C8: when the credential variable is unset (or empty) at the time an
upload is triggered — a first call for a new trace id with the cursor
holding a prior path — the upload attempt raises `ValueError` (it is
neither skipped: the attempt on the cursor path is recorded; nor converted
to a status string: `export` propagates the error), while the three staging
writes of that same call have already succeeded. -/
theorem c8_missing_credential (guk : Doc → String) (tok : Option String)
    (cb : ClientBehavior) (e : Exporter) (fs : FS) (b : List Doc)
    (tid p : String)
    (hb : batchTid b = some tid) (hsnap : fs.snap tid = none)
    (hsync : e.sync_file = some p) (htok : tokenMissing tok = true) :
    (exportBatch guk tok cb e fs b).err = some PyErr.valueError ∧
    (exportBatch guk tok cb e fs b).attempts = [p] ∧
    (exportBatch guk tok cb e fs b).fs.jsonl tid =
      fs.jsonl tid ++ [envelopeOf guk e b tid] ∧
    (exportBatch guk tok cb e fs b).fs.snap tid =
      some [envelopeOf guk e b tid] ∧
    (exportBatch guk tok cb e fs b).fs.tracerJson =
      some (envelopeOf guk e b tid) := by
  have hup : uploadTraces e tok cb = Except.error PyErr.valueError := by
    simp [uploadTraces, htok]
  obtain ⟨herr, hatt, _, _, _, hsn, hjs, htr⟩ :=
    exportBatch_first_cursor_raise guk tok cb e fs b tid p PyErr.valueError
      hb hsnap hsync hup
  exact ⟨herr, hatt, by rw [hjs tid]; simp, by rw [hsn tid]; simp, htr⟩

end FileSpanExporter

namespace FileSpanExporter

/-- Assigning a key into a Python dict makes the key present. -/
theorem hasKey_setKey (d : Doc) (k : String) (v : JVal) :
    hasKey (setKey d k v) k = true := by
  by_cases h : hasKey d k
  · simp only [setKey, if_pos h]
    simp only [hasKey, List.any_eq_true] at h ⊢
    obtain ⟨p, hp, hpk⟩ := h
    exact ⟨(k, v), List.mem_map.mpr ⟨p, hp, by simp [hpk]⟩, by simp⟩
  · simp only [setKey, if_neg h]
    simp [hasKey]

/-- Every export call over a well-formed batch assembles exactly the
envelope `envelopeOf`, regardless of which branch it then takes. -/
theorem exportBatch_written (guk : Doc → String) (tok : Option String)
    (cb : ClientBehavior) (e : Exporter) (fs : FS) (b : List Doc)
    (tid : String) (hb : batchTid b = some tid) :
    (exportBatch guk tok cb e fs b).written = some (envelopeOf guk e b tid) := by
  obtain ⟨s0, rest, rfl, h0⟩ := batchTid_eq_some hb
  simp only [exportBatch, h0]
  split
  · rfl
  · split
    · rfl
    · split <;> rfl

/-- C9: every envelope produced by `export` has exactly the fields
`project_name, trace_id, session_id, traces, metadata, pipeline`, in that
order; `metadata` and `pipeline` each carry a computed `id` key; every span
document under `traces` carries a `prompt_id` key; and the `trace_id` field
is the trace id read from the first span of the batch. -/
theorem c9_envelope_shape (guk : Doc → String) (tok : Option String)
    (cb : ClientBehavior) (e : Exporter) (fs : FS) (b : List Doc)
    (tid : String) (hb : batchTid b = some tid) :
    (exportBatch guk tok cb e fs b).written = some (envelopeOf guk e b tid) ∧
    objKeys (envelopeOf guk e b tid) =
      ["project_name", "trace_id", "session_id", "traces", "metadata",
        "pipeline"] ∧
    jLookup (envelopeOf guk e b tid) "trace_id" = some (JVal.str tid) ∧
    (∃ md, jLookup (envelopeOf guk e b tid) "metadata" = some (JVal.obj md) ∧
      hasKey md "id" = true) ∧
    (∃ pl, jLookup (envelopeOf guk e b tid) "pipeline" = some (JVal.obj pl) ∧
      hasKey pl "id" = true) ∧
    (∃ ts, jLookup (envelopeOf guk e b tid) "traces" = some (JVal.arr ts) ∧
      ∀ v ∈ ts, ∃ d, v = JVal.obj d ∧ hasKey d "prompt_id" = true) ∧
    (∃ s0 rest, b = s0 :: rest ∧ ctxTraceId s0 = some tid) := by
  refine ⟨exportBatch_written guk tok cb e fs b tid hb, rfl, rfl,
    ⟨setKey e.metadata "id" (JVal.str (guk e.metadata)), rfl,
      hasKey_setKey e.metadata "id" (JVal.str (guk e.metadata))⟩,
    ⟨setKey e.pipeline "id" (JVal.str (guk e.pipeline)), rfl,
      hasKey_setKey e.pipeline "id" (JVal.str (guk e.pipeline))⟩,
    ⟨b.map (fun t => JVal.obj (setKey t "prompt_id" (JVal.str (guk t)))), rfl,
      ?_⟩,
    batchTid_eq_some hb⟩
  intro v hv
  obtain ⟨t, _, rfl⟩ := List.mem_map.mp hv
  exact ⟨setKey t "prompt_id" (JVal.str (guk t)), rfl,
    hasKey_setKey t "prompt_id" (JVal.str (guk t))⟩

end FileSpanExporter

namespace PromptObject

/-- C10: `compile` raises `ValueError` if and only if the set of provided
argument names differs from the set of variable names `get_variables`
extracts (some variable missing, or some extra argument supplied); when the
sets agree it returns the prompt text with, for each keyword argument in
turn, every occurrence of the doubly braced variable name replaced by the
argument's string value (`substituteAll`, the loop of lines 315–317). -/
theorem c10_compile_correct (text : String) (kwargs : List (String × String)) :
    ((∃ msg, compile text kwargs = Except.error msg) ↔
      ¬ (∀ v, v ∈ get_variables text ↔ v ∈ kwargs.map Prod.fst)) ∧
    ((∀ v, v ∈ get_variables text ↔ v ∈ kwargs.map Prod.fst) →
      compile text kwargs = Except.ok (substituteAll text kwargs)) := by
  have hmiss : ((get_variables text).filter
      (fun v => !((kwargs.map Prod.fst).contains v)) = []) ↔
      ∀ v ∈ get_variables text, v ∈ kwargs.map Prod.fst := by
    rw [List.filter_eq_nil_iff]; simp
  have hext : ((kwargs.map Prod.fst).filter
      (fun k => !((get_variables text).contains k)) = []) ↔
      ∀ v ∈ kwargs.map Prod.fst, v ∈ get_variables text := by
    rw [List.filter_eq_nil_iff]; simp
  by_cases h1 : (get_variables text).filter
      (fun v => !((kwargs.map Prod.fst).contains v)) = []
  · by_cases h2 : (kwargs.map Prod.fst).filter
        (fun k => !((get_variables text).contains k)) = []
    · have hcomp : compile text kwargs = Except.ok (substituteAll text kwargs) := by
        simp only [compile]
        rw [if_neg (fun hne => hne h1), if_neg (fun hne => hne h2)]
      refine ⟨⟨?_, ?_⟩, fun _ => hcomp⟩
      · rintro ⟨msg, hmsg⟩
        rw [hcomp] at hmsg
        simp at hmsg
      · intro hniff
        exact absurd
          (fun v => ⟨fun hv => hmiss.mp h1 v hv, fun hv => hext.mp h2 v hv⟩) hniff
    · have hcomp : compile text kwargs = Except.error
          ("Extra variable(s) provided: " ++ String.intercalate ", "
            ((kwargs.map Prod.fst).filter
              (fun k => !((get_variables text).contains k)))) := by
        simp only [compile]
        rw [if_neg (fun hne => hne h1), if_pos h2]
      refine ⟨⟨?_, fun _ => ⟨_, hcomp⟩⟩, ?_⟩
      · intro _ hall
        exact h2 (hext.mpr (fun v hv => (hall v).mpr hv))
      · intro hall
        exact absurd (hext.mpr (fun v hv => (hall v).mpr hv)) h2
  · have hcomp : compile text kwargs = Except.error
        ("Missing variable(s): " ++ String.intercalate ", "
          ((get_variables text).filter
            (fun v => !((kwargs.map Prod.fst).contains v)))) := by
      simp only [compile]
      rw [if_pos h1]
    refine ⟨⟨?_, fun _ => ⟨_, hcomp⟩⟩, ?_⟩
    · intro _ hall
      exact h1 (hmiss.mpr (fun v hv => (hall v).mp hv))
    · intro hall
      exact absurd (hmiss.mpr (fun v hv => (hall v).mp hv)) h1

end PromptObject

namespace FileSpanExporter

/-- Witness for C1 at the concrete A,A,B,C scenario. -/
theorem c1_witness :
    (batchTid [sampleDoc "A"] = some "A" ∧ batchTid [sampleDoc "B"] = some "B" ∧
      batchTid [sampleDoc "C"] = some "C" ∧ ("B" : String) ≠ "A" ∧
      ("C" : String) ≠ "A" ∧ ("C" : String) ≠ "B" ∧
      tokenMissing (some "tok") = false ∧
      ClientBehavior.success true ≠ ClientBehavior.timesOut) ∧
    (sampleRun1.attempts = [] ∧ sampleRun2.attempts = [] ∧
      sampleRun3.attempts = ["A"] ∧ sampleRun4.attempts = ["B"] ∧
      sampleRun1.err = none ∧ sampleRun2.err = none ∧ sampleRun3.err = none ∧
      sampleRun4.err = none) :=
  ⟨by decide,
    c1_lagged_upload_trigger sampleGuk (some "tok") (ClientBehavior.success true)
      JVal.jnull "sess" [] [] "A" "B" "C"
      [sampleDoc "A"] [sampleDoc "A"] [sampleDoc "B"] [sampleDoc "C"]
      sampleRun1 sampleRun2 sampleRun3 sampleRun4
      (by decide) (by decide) (by decide) (by decide) (by decide) (by decide)
      (by decide) (by decide) (by decide) rfl rfl rfl rfl⟩

/-- Witness for C2 at a concrete erroring client. -/
theorem c2_witness :
    (batchTid [sampleDoc "A"] = some "A" ∧ tokenMissing (some "tok") = false) ∧
    ((exportBatch sampleGuk (some "tok") (ClientBehavior.raises "boom")
        sampleExporter emptyFS [sampleDoc "A"]).err = none ∧
      (exportBatch sampleGuk (some "tok") (ClientBehavior.raises "boom")
        sampleExporter emptyFS [sampleDoc "A"]).fs.jsonl "A" =
        emptyFS.jsonl "A" ++ [envelopeOf sampleGuk sampleExporter [sampleDoc "A"] "A"] ∧
      (exportBatch sampleGuk (some "tok") (ClientBehavior.raises "boom")
        sampleExporter emptyFS [sampleDoc "A"]).fs.snap "A" =
        some ((emptyFS.snap "A").getD []
          ++ [envelopeOf sampleGuk sampleExporter [sampleDoc "A"] "A"]) ∧
      (exportBatch sampleGuk (some "tok") (ClientBehavior.raises "boom")
        sampleExporter emptyFS [sampleDoc "A"]).fs.tracerJson =
        some (envelopeOf sampleGuk sampleExporter [sampleDoc "A"] "A")) :=
  ⟨by decide,
    c2_upload_failure_nonfatal sampleGuk (some "tok") "boom" sampleExporter
      emptyFS [sampleDoc "A"] "A" (by decide) (by decide)⟩

/-- Witness for C3 (amended) at a concrete succeeding upload. -/
theorem c3_witness :
    (batchTid [sampleDoc "B"] = some "B" ∧ emptyFS.snap "B" = none ∧
      sampleExporterCursor.sync_file = some "A") ∧
    (exportBatch sampleGuk (some "tok") (ClientBehavior.success true)
      sampleExporterCursor emptyFS [sampleDoc "B"]).attempts = ["A"] ∧
    (exportBatch sampleGuk (some "tok") (ClientBehavior.success true)
      sampleExporterCursor emptyFS [sampleDoc "B"]).exporter.sync_file = some "B" ∧
    (exportBatch sampleGuk (some "tok") (ClientBehavior.success true)
      sampleExporterCursor emptyFS [sampleDoc "B"]).err = none :=
  ⟨⟨by decide, rfl, rfl⟩,
    (c3_cursor_replacement sampleGuk (some "tok") (ClientBehavior.success true)
      sampleExporterCursor emptyFS [sampleDoc "B"] "B" "A"
      (by decide) rfl rfl).1,
    ((c3_cursor_replacement sampleGuk (some "tok") (ClientBehavior.success true)
      sampleExporterCursor emptyFS [sampleDoc "B"] "B" "A"
      (by decide) rfl rfl).2.1 "Files uploaded successfully" rfl).1,
    ((c3_cursor_replacement sampleGuk (some "tok") (ClientBehavior.success true)
      sampleExporterCursor emptyFS [sampleDoc "B"] "B" "A"
      (by decide) rfl rfl).2.1 "Files uploaded successfully" rfl).2⟩

/-- Witness for C4 at two concrete calls for trace "A". -/
theorem c4_witness :
    (([[sampleDoc "A"], [sampleDoc "A"]] : List (List Doc)) ≠ [] ∧
      ∀ b ∈ ([[sampleDoc "A"], [sampleDoc "A"]] : List (List Doc)),
        batchTid b = some "A") ∧
    ((runExports sampleGuk (some "tok") (ClientBehavior.success true)
        [[sampleDoc "A"], [sampleDoc "A"]] sampleExporter emptyFS).fs.snap "A" =
      some (runExports sampleGuk (some "tok") (ClientBehavior.success true)
        [[sampleDoc "A"], [sampleDoc "A"]] sampleExporter emptyFS).written ∧
      (runExports sampleGuk (some "tok") (ClientBehavior.success true)
        [[sampleDoc "A"], [sampleDoc "A"]] sampleExporter emptyFS).written.length
        = 2) :=
  ⟨⟨List.cons_ne_nil _ _, by decide⟩,
    c4_snapshot_accumulation sampleGuk (some "tok") (ClientBehavior.success true)
      JVal.jnull "sess" [] [] "A" [[sampleDoc "A"], [sampleDoc "A"]]
      (List.cons_ne_nil _ _) (by decide)⟩

/-- Witness for C5 at two concrete calls for trace "A". -/
theorem c5_witness :
    (([[sampleDoc "A"], [sampleDoc "A"]] : List (List Doc)) ≠ [] ∧
      ∀ b ∈ ([[sampleDoc "A"], [sampleDoc "A"]] : List (List Doc)),
        batchTid b = some "A") ∧
    ((runExports sampleGuk (some "tok") (ClientBehavior.success true)
        [[sampleDoc "A"], [sampleDoc "A"]] sampleExporter emptyFS).fs.jsonl "A" =
      (runExports sampleGuk (some "tok") (ClientBehavior.success true)
        [[sampleDoc "A"], [sampleDoc "A"]] sampleExporter emptyFS).written ∧
      (runExports sampleGuk (some "tok") (ClientBehavior.success true)
        [[sampleDoc "A"], [sampleDoc "A"]] sampleExporter emptyFS).written.length
        = 2) :=
  ⟨⟨List.cons_ne_nil _ _, by decide⟩,
    (c5_jsonl_lines sampleGuk (some "tok") (ClientBehavior.success true)
      JVal.jnull "sess" [] [] "A" [[sampleDoc "A"], [sampleDoc "A"]]
      (List.cons_ne_nil _ _) (by decide)).1,
    (c5_jsonl_lines sampleGuk (some "tok") (ClientBehavior.success true)
      JVal.jnull "sess" [] [] "A" [[sampleDoc "A"], [sampleDoc "A"]]
      (List.cons_ne_nil _ _) (by decide)).2.1⟩

/-- Witness for C8 at a concrete missing-credential upload trigger. -/
theorem c8_witness :
    (batchTid [sampleDoc "B"] = some "B" ∧ emptyFS.snap "B" = none ∧
      sampleExporterCursor.sync_file = some "A" ∧
      tokenMissing (none : Option String) = true) ∧
    ((exportBatch sampleGuk none (ClientBehavior.success true)
        sampleExporterCursor emptyFS [sampleDoc "B"]).err = some PyErr.valueError ∧
      (exportBatch sampleGuk none (ClientBehavior.success true)
        sampleExporterCursor emptyFS [sampleDoc "B"]).attempts = ["A"] ∧
      (exportBatch sampleGuk none (ClientBehavior.success true)
        sampleExporterCursor emptyFS [sampleDoc "B"]).fs.jsonl "B" =
        emptyFS.jsonl "B"
          ++ [envelopeOf sampleGuk sampleExporterCursor [sampleDoc "B"] "B"] ∧
      (exportBatch sampleGuk none (ClientBehavior.success true)
        sampleExporterCursor emptyFS [sampleDoc "B"]).fs.snap "B" =
        some [envelopeOf sampleGuk sampleExporterCursor [sampleDoc "B"] "B"] ∧
      (exportBatch sampleGuk none (ClientBehavior.success true)
        sampleExporterCursor emptyFS [sampleDoc "B"]).fs.tracerJson =
        some (envelopeOf sampleGuk sampleExporterCursor [sampleDoc "B"] "B")) :=
  ⟨⟨by decide, rfl, rfl, by decide⟩,
    c8_missing_credential sampleGuk none (ClientBehavior.success true)
      sampleExporterCursor emptyFS [sampleDoc "B"] "B" "A"
      (by decide) rfl rfl (by decide)⟩

/-- Witness for C9 at a concrete batch. -/
theorem c9_witness :
    batchTid [sampleDoc "A"] = some "A" ∧
    ((exportBatch sampleGuk (some "tok") (ClientBehavior.success true)
        sampleExporter emptyFS [sampleDoc "A"]).written =
      some (envelopeOf sampleGuk sampleExporter [sampleDoc "A"] "A") ∧
      objKeys (envelopeOf sampleGuk sampleExporter [sampleDoc "A"] "A") =
        ["project_name", "trace_id", "session_id", "traces", "metadata",
          "pipeline"] ∧
      jLookup (envelopeOf sampleGuk sampleExporter [sampleDoc "A"] "A")
        "trace_id" = some (JVal.str "A")) :=
  ⟨by decide,
    (c9_envelope_shape sampleGuk (some "tok") (ClientBehavior.success true)
      sampleExporter emptyFS [sampleDoc "A"] "A" (by decide)).1,
    (c9_envelope_shape sampleGuk (some "tok") (ClientBehavior.success true)
      sampleExporter emptyFS [sampleDoc "A"] "A" (by decide)).2.1,
    (c9_envelope_shape sampleGuk (some "tok") (ClientBehavior.success true)
      sampleExporter emptyFS [sampleDoc "A"] "A" (by decide)).2.2.1⟩

end FileSpanExporter

namespace PromptObject

/-- Witness for C10 at a concrete prompt and argument set. -/
theorem c10_witness :
    compile "Hello \x7b\x7bname\x7d\x7d!" [("name", "World")] =
      Except.ok "Hello World!" ∧
    compile "Hello \x7b\x7bname\x7d\x7d!" [("name", "World")] =
      Except.ok (substituteAll "Hello \x7b\x7bname\x7d\x7d!" [("name", "World")]) :=
  ⟨rfl, (c10_compile_correct "Hello \x7b\x7bname\x7d\x7d!" [("name", "World")]).2
    (fun _ => Iff.rfl)⟩

end PromptObject
